import Mathlib

/-!
Verification of the Whisprr presence-tracking and real-time delivery
subsystem, shallowly embedded from the back-end sources:

* `back-end/src/lib/socket.js` — the in-memory registry `userSocketMap`
  (a JS object mapping userId → socketId), the helper
  `getReceiverSocketId`, and the `connection` / `disconnect` handlers
  that mutate the registry and broadcast `getOnlineUsers`;
* `back-end/src/middleware/socket.auth.middleware.js` — the handshake
  authentication gate `socketAuthMiddleware`;
* `back-end/src/controllers/message.controller.js` — the real-time
  delivery fragment of `sendMessage`.

The JS object is embedded as an insertion-ordered association list: a JS
object never holds two properties with the same key, so property
assignment updates the (single) entry whose key matches, keeping its
position, and appends a fresh entry when the key is absent; property
deletion removes the (single) matching entry; `Object.keys` is the list
of first components in insertion order.
-/

namespace Whisprr

/-- A user identity: the string form of a Mongo user id
(`socket.userId = user._id.toString()` in socket.auth.middleware.js). -/
abbrev Identity := String

/-- A connection handle: a Socket.io socket id (`socket.id`). -/
abbrev Handle := String

/-- The in-memory map `userSocketMap = {}` from socket.js
(`{userId: socketId}`), embedded as an association list. -/
abbrev Registry := List (Identity × Handle)

/-- `getReceiverSocketId(userId)` from socket.js:
`return userSocketMap[userId]` — a property read, `none` when the key
is absent. -/
def getReceiverSocketId : Registry → Identity → Option Handle
  | [], _ => none
  | p :: t, u => if p.1 = u then some p.2 else getReceiverSocketId t u

/-- The connect-time mutation `userSocketMap[userId] = socket.id` from
socket.js: a JS property assignment updates the value in place when the
key is present (keeping its insertion position) and appends a fresh
entry otherwise. -/
def register : Registry → Identity → Handle → Registry
  | [], u, s => [(u, s)]
  | p :: t, u, s => if p.1 = u then (u, s) :: t else p :: register t u s

/-- The disconnect-time mutation `delete userSocketMap[userId]` from
socket.js: removes the entry for `userId` unconditionally (the handler
does not compare the stored socket id with the disconnecting socket). -/
def unregister : Registry → Identity → Registry
  | [], _ => []
  | p :: t, u => if p.1 = u then unregister t u else p :: unregister t u

/-- `Object.keys(userSocketMap)` from socket.js: the current online set,
broadcast as the `getOnlineUsers` payload. -/
def onlineUsers (m : Registry) : List Identity :=
  m.map Prod.fst

theorem getReceiverSocketId_register_self (m : Registry) (u : Identity) (h : Handle) :
    getReceiverSocketId (register m u h) u = some h := by
  induction m with
  | nil => simp [register, getReceiverSocketId]
  | cons p t ih =>
    by_cases hp : p.1 = u
    · simp [register, getReceiverSocketId, hp]
    · simp [register, getReceiverSocketId, hp, ih]

theorem getReceiverSocketId_register_other (m : Registry) (u v : Identity) (h : Handle)
    (hne : v ≠ u) :
    getReceiverSocketId (register m u h) v = getReceiverSocketId m v := by
  have huv : ¬ u = v := fun hvv => hne hvv.symm
  induction m with
  | nil => simp [register, getReceiverSocketId, huv]
  | cons p t ih =>
    by_cases hp : p.1 = u
    · have hpv : ¬ p.1 = v := by
        rw [hp]
        exact huv
      simp [register, getReceiverSocketId, hp, hpv, huv]
    · by_cases hpv : p.1 = v
      · simp [register, getReceiverSocketId, hp, hpv, hne]
      · simp [register, getReceiverSocketId, hp, hpv, ih]

theorem getReceiverSocketId_unregister_self (m : Registry) (u : Identity) :
    getReceiverSocketId (unregister m u) u = none := by
  induction m with
  | nil => simp [unregister, getReceiverSocketId]
  | cons p t ih =>
    by_cases hp : p.1 = u
    · simp [unregister, hp, ih]
    · simp [unregister, getReceiverSocketId, hp, ih]

theorem getReceiverSocketId_unregister_other (m : Registry) (u v : Identity)
    (hne : v ≠ u) :
    getReceiverSocketId (unregister m u) v = getReceiverSocketId m v := by
  have huv : ¬ u = v := fun hvv => hne hvv.symm
  induction m with
  | nil => simp [unregister]
  | cons p t ih =>
    by_cases hp : p.1 = u
    · have hpv : ¬ p.1 = v := by
        rw [hp]
        exact huv
      simp [unregister, getReceiverSocketId, hp, hpv, huv, ih]
    · by_cases hpv : p.1 = v
      · simp [unregister, getReceiverSocketId, hp, hpv, hne]
      · simp [unregister, getReceiverSocketId, hp, hpv, ih]

/-- One registry-mutating lifecycle event of socket.js: `register u s` is
the body of the `connection` handler (`userSocketMap[userId] = socket.id`);
`disconnect u s` is the per-connection `disconnect` handler created with
captured `userId = u` for socket `s` — its body
`delete userSocketMap[userId]` uses only the captured `userId` and ignores
which socket is disconnecting. -/
inductive Op
  | register (userId : Identity) (sid : Handle)
  | disconnect (userId : Identity) (sid : Handle)
deriving DecidableEq

/-- The registry mutation performed by one lifecycle event. -/
def applyOp (m : Registry) : Op → Registry
  | .register u s => register m u s
  | .disconnect u _ => unregister m u

/-- Running a sequence of lifecycle events against the initially empty
`userSocketMap = {}`. -/
def runOps (ops : List Op) : Registry :=
  ops.foldl applyOp []

/-- Spec-side account of "the handle of the most recent register for `u`
that has not been removed": fold over the events; a register for `u`
installs its handle, a disconnect for `u` clears the slot. -/
def lastRegistered (ops : List Op) (u : Identity) : Option Handle :=
  ops.foldl
    (fun acc op =>
      match op with
      | .register v s => if v = u then some s else acc
      | .disconnect v _ => if v = u then none else acc)
    none

theorem getReceiverSocketId_foldl (ops : List Op) (m : Registry) (u : Identity) :
    getReceiverSocketId (ops.foldl applyOp m) u =
      ops.foldl
        (fun acc op =>
          match op with
          | .register v s => if v = u then some s else acc
          | .disconnect v _ => if v = u then none else acc)
        (getReceiverSocketId m u) := by
  induction ops generalizing m with
  | nil => rfl
  | cons op t ih =>
    rw [List.foldl_cons, List.foldl_cons, ih]
    congr 1
    cases op with
    | register v s =>
      by_cases hv : v = u
      · subst hv
        simp [applyOp, getReceiverSocketId_register_self]
      · simp [applyOp, hv,
          getReceiverSocketId_register_other m v u s (fun hcontra => hv hcontra.symm)]
    | disconnect v s =>
      by_cases hv : v = u
      · subst hv
        simp [applyOp, getReceiverSocketId_unregister_self]
      · simp [applyOp, hv,
          getReceiverSocketId_unregister_other m v u (fun hcontra => hv hcontra.symm)]

/-- C2: at most one live handle per identity — for every finite sequence
of register/disconnect events, `getReceiverSocketId` yields at most one
handle (it is an `Option`), and it is exactly the handle of the most
recent register for that identity that no later disconnect removed;
moreover a later register for the same identity overwrites the earlier
mapping, making the old handle unreachable via lookup. -/
theorem at_most_one_live_handle (ops : List Op) (u : Identity) (h1 h2 : Handle) :
    getReceiverSocketId (runOps ops) u = lastRegistered ops u ∧
    getReceiverSocketId (runOps (ops ++ [Op.register u h1, Op.register u h2])) u = some h2 := by
  constructor
  · exact getReceiverSocketId_foldl ops [] u
  · rw [runOps, List.foldl_append]
    simp [applyOp, getReceiverSocketId_register_self]

/-- C1 counterexample: the claim "register(id, h1); register(id, h2);
unregister(id, h1) leaves lookup(id) = h2" is false on the code — the
disconnect handler deletes the mapping unconditionally, so the stale
disconnect of `s1` evicts the live `s2` and lookup returns nothing. -/
theorem stale_disconnect_claim_false :
    getReceiverSocketId
        (runOps [Op.register "u1" "s1", Op.register "u1" "s2", Op.disconnect "u1" "s1"])
        "u1" ≠ some "s2" := by
  decide

/-- C1 amended: after register(id, h1); register(id, h2);
unregister(id, h1), lookup(id) returns nothing — `delete
userSocketMap[userId]` removes the mapping whichever socket is
disconnecting, so a stale disconnect from a replaced session evicts the
newer session's mapping. -/
theorem stale_disconnect_evicts (ops : List Op) (u : Identity) (h1 h2 : Handle) :
    getReceiverSocketId
        (runOps (ops ++ [Op.register u h1, Op.register u h2, Op.disconnect u h1]))
        u = none := by
  rw [runOps, List.foldl_append]
  simp [applyOp, getReceiverSocketId_unregister_self]

/-- C9: register/unregister frame property — mutating identity `u` never
changes the mapping of any other identity `v`. -/
theorem register_unregister_frame (m : Registry) (u v : Identity) (h : Handle)
    (hne : u ≠ v) :
    getReceiverSocketId (register m u h) v = getReceiverSocketId m v ∧
    getReceiverSocketId (unregister m u) v = getReceiverSocketId m v :=
  ⟨getReceiverSocketId_register_other m u v h (fun hvu => hne hvu.symm),
   getReceiverSocketId_unregister_other m u v (fun hvu => hne hvu.symm)⟩

theorem register_unregister_frame_witness :
    ("u1" : Identity) ≠ "u2" ∧
    (getReceiverSocketId (register [("u2", "s2")] "u1" "s1") "u2"
        = getReceiverSocketId [("u2", "s2")] "u2" ∧
     getReceiverSocketId (unregister [("u2", "s2")] "u1") "u2"
        = getReceiverSocketId [("u2", "s2")] "u2") :=
  ⟨by decide, register_unregister_frame [("u2", "s2")] "u1" "u2" "s1" (by decide)⟩

theorem unregister_unregister (m : Registry) (u : Identity) :
    unregister (unregister m u) u = unregister m u := by
  induction m with
  | nil => rfl
  | cons p t ih =>
    by_cases hp : p.1 = u
    · simp [unregister, hp, ih]
    · simp [unregister, hp, ih]

/-- C10: unregister is idempotent — two disconnect events for the same
identity in succession leave the registry exactly as one does; deleting
an already-absent key is a no-op on the mapping. -/
theorem unregister_idempotent (m : Registry) (u : Identity) (s s' : Handle) :
    applyOp (applyOp m (Op.disconnect u s)) (Op.disconnect u s') = applyOp m (Op.disconnect u s) :=
  unregister_unregister m u

/-- The observable server state of socket.js: the set of currently
connected sockets (`io`'s connection pool), the `userSocketMap`
registry, and, per socket, the payload of the last `getOnlineUsers`
event it received (none if it never received one). -/
structure ServerState where
  live : List Handle
  reg : Registry
  lastPresence : Handle → Option (List Identity)

/-- Process start: no connections, empty `userSocketMap`, nothing
broadcast yet. -/
def initServer : ServerState :=
  { live := [], reg := [], lastPresence := fun _ => none }

/-- `io.emit("getOnlineUsers", Object.keys(userSocketMap))` from
socket.js: pushes the full current online set to every currently
connected socket. -/
def broadcastOnline (st : ServerState) : ServerState :=
  { st with
    lastPresence := fun s =>
      if s ∈ st.live then some (onlineUsers st.reg) else st.lastPresence s }

/-- A transport-layer lifecycle notification: a new authenticated socket
`sid` for user `u` connects, or socket `sid` (whose `connection` handler
captured `userId = u`) disconnects. -/
inductive SockEv
  | connect (userId : Identity) (sid : Handle)
  | disconnect (userId : Identity) (sid : Handle)
deriving DecidableEq

/-- The `connection` / `disconnect` handlers of socket.js. On connect the
socket joins the pool, `userSocketMap[userId] = socket.id` runs, and
`getOnlineUsers` is broadcast (the fresh socket included). On disconnect
the socket has already left the pool, `delete userSocketMap[userId]`
runs, and `getOnlineUsers` is broadcast to the remaining sockets. -/
def stepEv (st : ServerState) : SockEv → ServerState
  | .connect u s =>
      broadcastOnline
        { live := st.live ++ [s], reg := register st.reg u s, lastPresence := st.lastPresence }
  | .disconnect u s =>
      broadcastOnline
        { live := st.live.filter (fun t => !(t == s)), reg := unregister st.reg u,
          lastPresence := st.lastPresence }

/-- Running a sequence of lifecycle notifications from process start. -/
def runServer (evs : List SockEv) : ServerState :=
  evs.foldl stepEv initServer

/-- Every currently connected socket has last received exactly the
current online set. -/
def PresenceSynced (st : ServerState) : Prop :=
  ∀ s, s ∈ st.live → st.lastPresence s = some (onlineUsers st.reg)

theorem presenceSynced_broadcastOnline (st : ServerState) :
    PresenceSynced (broadcastOnline st) := by
  intro s hs
  simp only [broadcastOnline] at hs ⊢
  rw [if_pos hs]

theorem presenceSynced_stepEv (st : ServerState) (ev : SockEv) :
    PresenceSynced (stepEv st ev) := by
  cases ev with
  | connect u s => exact presenceSynced_broadcastOnline _
  | disconnect u s => exact presenceSynced_broadcastOnline _

theorem presenceSynced_foldl (evs : List SockEv) (st : ServerState)
    (h : PresenceSynced st) : PresenceSynced (evs.foldl stepEv st) := by
  induction evs generalizing st with
  | nil => exact h
  | cons e t ih => exact ih _ (presenceSynced_stepEv st e)

/-- C3: presence convergence — after any finite sequence of
connect/disconnect events (each of which broadcasts the full current
online set to every connected socket, the just-connected one included),
every currently connected socket has last received a `getOnlineUsers`
payload equal to the exact set of identities registered at that moment. -/
theorem presence_convergence (evs : List SockEv) (s : Handle)
    (hs : s ∈ (runServer evs).live) :
    (runServer evs).lastPresence s = some (onlineUsers (runServer evs).reg) :=
  presenceSynced_foldl evs initServer
    (fun _ hmem => absurd hmem (List.not_mem_nil _)) s hs

theorem presence_convergence_witness :
    "s1" ∈ (runServer [SockEv.connect "u1" "s1"]).live ∧
    (runServer [SockEv.connect "u1" "s1"]).lastPresence "s1"
      = some (onlineUsers (runServer [SockEv.connect "u1" "s1"]).reg) :=
  ⟨by decide, presence_convergence [SockEv.connect "u1" "s1"] "s1" (by decide)⟩

/-- Outcome of `jwt.verify(token, ENV.JWT_SECRET)` in
socket.auth.middleware.js: it throws (invalid/expired/tampered token),
returns a falsy value, or returns a decoded payload carrying `id`. -/
inductive VerifyResult
  | threw
  | falsy
  | ok (id : Identity)
deriving DecidableEq

/-- The rejection reasons of socket.auth.middleware.js, one per
`next(new Error(...))` site. -/
inductive AuthError
  | noTokenProvided
  | invalidToken
  | userNotFound
  | authenticationFailed
deriving DecidableEq

/-- `socketAuthMiddleware` from socket.auth.middleware.js: extract the
`jwt` cookie from the handshake; reject when it is absent; verify it
(a throwing `jwt.verify` lands in the catch branch); reject a falsy
decoded payload; look the user up; reject when the account no longer
exists; otherwise admit with the verified identity. -/
def socketAuthMiddleware (verify : String → VerifyResult) (userExists : Identity → Bool)
    (cookieToken : Option String) : Except AuthError Identity :=
  match cookieToken with
  | none => Except.error AuthError.noTokenProvided
  | some t =>
    match verify t with
    | VerifyResult.threw => Except.error AuthError.authenticationFailed
    | VerifyResult.falsy => Except.error AuthError.invalidToken
    | VerifyResult.ok id =>
      if userExists id then Except.ok id else Except.error AuthError.userNotFound

/-- The full admission pipeline of socket.js: `io.use(socketAuthMiddleware)`
runs before the `connection` handler, so on rejection the handler never
runs and no registry mutation happens; on success the connect event for
the verified identity is processed. -/
def handleConnection (verify : String → VerifyResult) (userExists : Identity → Bool)
    (cookieToken : Option String) (sid : Handle) (st : ServerState) :
    Except AuthError Identity × ServerState :=
  match socketAuthMiddleware verify userExists cookieToken with
  | Except.error e => (Except.error e, st)
  | Except.ok uid => (Except.ok uid, stepEv st (SockEv.connect uid sid))

/-- C6: handshake gate rejection — when the credential is missing, fails
verification, or names an identity with no existing user, the attempt
yields an `AuthError` and the server state (registry included) is
exactly what it was: a rejected attempt is never admitted into the
registry. -/
theorem handshake_gate_rejects (verify : String → VerifyResult) (userExists : Identity → Bool)
    (tok : Option String) (sid : Handle) (st : ServerState)
    (hfail : tok = none ∨
      (∃ t, tok = some t ∧ (verify t = VerifyResult.threw ∨ verify t = VerifyResult.falsy)) ∨
      (∃ t uid, tok = some t ∧ verify t = VerifyResult.ok uid ∧ userExists uid = false)) :
    (∃ e, (handleConnection verify userExists tok sid st).1 = Except.error e) ∧
    (handleConnection verify userExists tok sid st).2 = st := by
  rcases hfail with rfl | ⟨t, rfl, hv | hv⟩ | ⟨t, uid, rfl, hok, hex⟩
  · exact ⟨⟨AuthError.noTokenProvided, rfl⟩, rfl⟩
  · refine ⟨⟨AuthError.authenticationFailed, ?_⟩, ?_⟩ <;>
      simp [handleConnection, socketAuthMiddleware, hv]
  · refine ⟨⟨AuthError.invalidToken, ?_⟩, ?_⟩ <;>
      simp [handleConnection, socketAuthMiddleware, hv]
  · refine ⟨⟨AuthError.userNotFound, ?_⟩, ?_⟩ <;>
      simp [handleConnection, socketAuthMiddleware, hok, hex]

theorem handshake_gate_rejects_witness :
    ((some "tok" : Option String) = none ∨
      (∃ t, (some "tok" : Option String) = some t ∧
        ((fun _ : String => VerifyResult.threw) t = VerifyResult.threw ∨
         (fun _ : String => VerifyResult.threw) t = VerifyResult.falsy)) ∨
      (∃ t uid, (some "tok" : Option String) = some t ∧
        (fun _ : String => VerifyResult.threw) t = VerifyResult.ok uid ∧
        (fun _ : Identity => true) uid = false)) ∧
    ((∃ e, (handleConnection (fun _ => VerifyResult.threw) (fun _ => true)
        (some "tok") "s1" initServer).1 = Except.error e) ∧
     (handleConnection (fun _ => VerifyResult.threw) (fun _ => true)
        (some "tok") "s1" initServer).2 = initServer) :=
  ⟨Or.inr (Or.inl ⟨"tok", rfl, Or.inl rfl⟩),
   handshake_gate_rejects (fun _ => VerifyResult.threw) (fun _ => true)
     (some "tok") "s1" initServer (Or.inr (Or.inl ⟨"tok", rfl, Or.inl rfl⟩))⟩

/-- Outcome of a delivery attempt: the spec's route contract applied to
the two branches of the sendMessage fragment — the branch that emits is
`Delivered`, the branch that skips the emit is `NotConnected`. -/
inductive RouteResult
  | Delivered
  | NotConnected
deriving DecidableEq

/-- One push over the transport: target socket id, event name, payload
(`io.to(receiverSocketId).emit("newMessage", newMessage)`). -/
structure Emission (α : Type) where
  target : Handle
  event : String
  payload : α
deriving DecidableEq

/-- The real-time delivery fragment of `sendMessage`
(message.controller.js): `const receiverSocketId =
getReceiverSocketId(receiverId); if (receiverSocketId) {
io.to(receiverSocketId).emit("newMessage", newMessage); }` — per JS
truthiness, `undefined` and the empty string are falsy. Returns the
outcome, the pushes performed, and the registry, which the fragment
only reads. -/
def route {α : Type} (m : Registry) (receiverId : Identity) (payload : α) :
    RouteResult × List (Emission α) × Registry :=
  match getReceiverSocketId m receiverId with
  | some sid =>
    if sid = "" then (RouteResult.NotConnected, [], m)
    else (RouteResult.Delivered, [⟨sid, "newMessage", payload⟩], m)
  | none => (RouteResult.NotConnected, [], m)

/-- C4: delivery correctness when online — once `u` is registered with a
live (hence nonempty) socket id `h`, routing a payload to `u` emits
exactly one `newMessage` push, targeted at `h` alone, and the outcome is
`Delivered`; the registry is untouched. -/
theorem route_delivered_when_online {α : Type} (m : Registry) (u : Identity) (h : Handle)
    (p : α) (hlive : h ≠ "") :
    route (register m u h) u p
      = (RouteResult.Delivered, [⟨h, "newMessage", p⟩], register m u h) := by
  simp [route, getReceiverSocketId_register_self, hlive]

theorem route_delivered_when_online_witness :
    ("s2" : Handle) ≠ "" ∧
    route (register [] "u2" "s2") "u2" "hi"
      = (RouteResult.Delivered, [⟨"s2", "newMessage", "hi"⟩], register [] "u2" "s2") :=
  ⟨by decide, route_delivered_when_online [] "u2" "s2" "hi" (by decide)⟩

/-- C5: delivery correctness when offline — when no registration exists
for `u`, routing returns `NotConnected`, performs no push to any
connection, and leaves the registry unchanged. -/
theorem route_not_connected_when_offline {α : Type} (m : Registry) (u : Identity) (p : α)
    (hoff : getReceiverSocketId m u = none) :
    route m u p = (RouteResult.NotConnected, [], m) := by
  simp [route, hoff]

theorem route_not_connected_when_offline_witness :
    getReceiverSocketId [("u1", "s1")] "u2" = none ∧
    route [("u1", "s1")] "u2" "bye"
      = (RouteResult.NotConnected, [], [("u1", "s1")]) :=
  ⟨by decide, route_not_connected_when_offline [("u1", "s1")] "u2" "bye" (by decide)⟩

/-- `getReceiverSocketId` as a state-threaded operation: the body
`return userSocketMap[userId]` reads the map and contains no assignment,
so the state it passes on is the incoming one. -/
def lookupOp (m : Registry) (u : Identity) : Option Handle × Registry :=
  (getReceiverSocketId m u, m)

/-- A registry operation as seen by the whole subsystem: a lifecycle
mutation, or a read through `getReceiverSocketId`. -/
inductive ROp
  | lifecycle (op : Op)
  | lookup (u : Identity)

/-- State effect of one such operation. -/
def applyROp (m : Registry) : ROp → Registry
  | .lifecycle op => applyOp m op
  | .lookup u => (lookupOp m u).2

/-- Running a mixed sequence of mutations and lookups from the empty
`userSocketMap`. -/
def runROps (ops : List ROp) : Registry :=
  ops.foldl applyROp []

/-- C8: lookup is a pure read — it returns the currently mapped handle,
hands back the registry it was given, and inserting a lookup anywhere
into a sequence of operations leaves the resulting registry exactly as
if the lookup had not happened. -/
theorem lookup_pure_read (m : Registry) (u : Identity) (ops1 ops2 : List ROp) :
    (lookupOp m u).2 = m ∧
    (lookupOp m u).1 = getReceiverSocketId m u ∧
    runROps (ops1 ++ ROp.lookup u :: ops2) = runROps (ops1 ++ ops2) := by
  refine ⟨rfl, rfl, ?_⟩
  rw [runROps, runROps, List.foldl_append, List.foldl_append, List.foldl_cons]
  rfl

/-- Whether the transport push to one particular connection succeeds or
fails at the transport level. -/
inductive PushOutcome
  | ok
  | failed
deriving DecidableEq

/-- Modelled from the spec: the per-connection fan-out loop of the
presence broadcast lives inside the transport library (the `io.emit`
call in socket.js), not in this repository's sources. Following the
spec's words — a push failure "is caught and logged, and broadcasting
continues to the remaining connections" — the broadcast visits each
live connection in turn, attempts the push, and swallows a failure
while the loop continues. Returns the deliveries that succeeded, as
(connection, online set) pairs. -/
def announce (conns : List Handle) (push : Handle → PushOutcome) (online : List Identity) :
    List (Handle × List Identity) :=
  match conns with
  | [] => []
  | c :: rest =>
    match push c with
    | PushOutcome.ok => (c, online) :: announce rest push online
    | PushOutcome.failed => announce rest push online

/-- C7: broadcast isolation — even when the push to some connection
`bad` fails during a presence broadcast, every live connection whose own
push succeeds still receives the presence update; one failing connection
never aborts the broadcast. -/
theorem broadcast_isolation (conns : List Handle) (push : Handle → PushOutcome)
    (online : List Identity) (bad c : Handle)
    (hbad : push bad = PushOutcome.failed) (hc : c ∈ conns)
    (hcok : push c = PushOutcome.ok) :
    (c, online) ∈ announce conns push online := by
  induction conns with
  | nil => cases hc
  | cons a rest ih =>
    rcases List.mem_cons.mp hc with rfl | hmem
    · simp [announce, hcok]
    · have hrec := ih hmem
      cases hpa : push a with
      | ok => simp [announce, hpa, hrec]
      | failed => simpa [announce, hpa] using hrec

theorem broadcast_isolation_witness :
    (fun s => if s = "s1" then PushOutcome.failed else PushOutcome.ok) "s1"
        = PushOutcome.failed ∧
    "s2" ∈ ["s1", "s2"] ∧
    (fun s => if s = "s1" then PushOutcome.failed else PushOutcome.ok) "s2"
        = PushOutcome.ok ∧
    ("s2", ["u1", "u2"]) ∈ announce ["s1", "s2"]
        (fun s => if s = "s1" then PushOutcome.failed else PushOutcome.ok) ["u1", "u2"] :=
  ⟨by decide, by decide, by decide,
   broadcast_isolation ["s1", "s2"]
     (fun s => if s = "s1" then PushOutcome.failed else PushOutcome.ok)
     ["u1", "u2"] "s1" "s2" (by decide) (by decide) (by decide)⟩

end Whisprr
